import Mathlib

/-!
Verification of `Testnet/explorer/serve.py` (POATC dashboard static file
server) against its specification. The Python source is shallowly embedded:
HTTP response construction becomes explicit state passing over a `Response`
record, the `main` entry point becomes a function producing the ordered list
of observable effects plus a process outcome, and Python `int()` parsing of
the port argument becomes `pyInt`.
-/

namespace Serve

/-! ## Python `int()` parsing of the port argument -/

/-- Tail of a decimal digit run: digits, with single underscores allowed only
between digits (Python integer-literal grammar accepted by `int()`). -/
def digitsTail : List Char → Bool
  | [] => true
  | ['_'] => false
  | '_' :: c :: rest => c.isDigit && digitsTail rest
  | c :: rest => c.isDigit && digitsTail rest

/-- A nonempty decimal digit run, underscores allowed between digits. -/
def digitsOK : List Char → Bool
  | [] => false
  | c :: rest => c.isDigit && digitsTail rest

/-- Numeric value of a digit run, skipping underscore separators. -/
def digitsVal (cs : List Char) : Nat :=
  cs.foldl (fun a c => if c = '_' then a else 10 * a + (c.toNat - 48)) 0

/-- Strip leading and trailing whitespace, as Python `int()` does before
parsing its string argument. -/
def pyStrip (cs : List Char) : List Char :=
  ((cs.dropWhile Char.isWhitespace).reverse.dropWhile Char.isWhitespace).reverse

/-- Embedding of Python `int(s)` on a string argument: optional surrounding
whitespace, an optional single sign, then a nonempty run of decimal digits
(underscore separators between digits allowed). Returns `none` when Python
would raise `ValueError`. -/
def pyInt (s : String) : Option Int :=
  match pyStrip s.toList with
  | '-' :: rest => if digitsOK rest then some (-(digitsVal rest : Int)) else none
  | '+' :: rest => if digitsOK rest then some ((digitsVal rest : Int)) else none
  | cs => if digitsOK cs then some ((digitsVal cs : Int)) else none

/-- Embedding of the port-selection logic of `main` (serve.py lines 30-35):
`port = 8080`; if an argument is present, `port = int(sys.argv[1])`, and on
`ValueError` a warning is printed and the default kept. The input is
`sys.argv[1:]`; the result is the chosen port and whether the warning printed. -/
def parsePort (args : List String) : Int × Bool :=
  match args with
  | [] => (8080, false)
  | a :: _ =>
    match pyInt a with
    | some n => (n, false)
    | none => (8080, true)

/-! ## HTTP response construction -/

/-- The observable state of one HTTP response under construction by a
`CORSHTTPRequestHandler`: status code sent, header lines sent so far (in
order), whether `end_headers` has finalized the header block, and body bytes. -/
structure Response where
  status : Option Nat := none
  headers : List (String × String) := []
  headersFinalized : Bool := false
  body : List Nat := []
deriving DecidableEq, Repr

/-- A fresh response state, one per request. -/
def initResponse : Response := {}

/-- Embedding of `BaseHTTPRequestHandler.send_response`: records the status
code (the stdlib `Server`/`Date` headers it also emits are not modelled; no
claim concerns them). -/
def send_response (r : Response) (code : Nat) : Response :=
  { r with status := some code }

/-- Embedding of `send_header`: appends one header line. -/
def send_header (r : Response) (k v : String) : Response :=
  { r with headers := r.headers ++ [(k, v)] }

/-- Embedding of the superclass `end_headers`: finalizes the header block. -/
def base_end_headers (r : Response) : Response :=
  { r with headersFinalized := true }

/-- Embedding of `CORSHTTPRequestHandler.end_headers` (serve.py lines 15-19):
sends the three CORS headers, then calls the superclass `end_headers`. -/
def end_headers (r : Response) : Response :=
  base_end_headers
    (send_header
      (send_header
        (send_header r "Access-Control-Allow-Origin" "*")
        "Access-Control-Allow-Methods" "GET, POST, OPTIONS")
      "Access-Control-Allow-Headers" "Content-Type")

/-- Embedding of `CORSHTTPRequestHandler.do_OPTIONS` (serve.py lines 21-23):
`send_response(200)` then `end_headers()`; no body is written. -/
def do_OPTIONS (r : Response) : Response :=
  end_headers (send_response r 200)

/-- Modelled from the spec: `BaseHTTPRequestHandler.send_error` lives in the
Python standard library, not in this repository. Per the spec, error
responses carry the error status and go through the generic
response-finalization step (`end_headers`, hence the CORS override). The
stdlib HTML error body is not modelled; no claim concerns its content. -/
def send_error (r : Response) (code : Nat) : Response :=
  end_headers (send_response r code)

/-- Modelled from the spec: `SimpleHTTPRequestHandler.do_GET` lives in the
Python standard library, not in this repository. Per the spec: if a regular
file exists at the resolved path, status 200 with the file bytes; otherwise
status 404. `fs` maps a request path to the bytes of the file it resolves to
under the serving root, or `none` when no file exists there. -/
def do_GET (fs : String → Option (List Nat)) (path : String) (r : Response) : Response :=
  match fs path with
  | some bytes => { end_headers (send_response r 200) with body := bytes }
  | none => send_error r 404

/-- Modelled from the spec: `SimpleHTTPRequestHandler.do_HEAD` (stdlib) —
same status and headers as GET but no body bytes. -/
def do_HEAD (fs : String → Option (List Nat)) (path : String) (r : Response) : Response :=
  match fs path with
  | some _ => end_headers (send_response r 200)
  | none => send_error r 404

/-- An HTTP request method as dispatched by the handler. -/
inductive Method where
  | GET
  | HEAD
  | OPTIONS
  | POST
  | other (name : String)
deriving DecidableEq, Repr

/-- Per-request dispatch. The method table of `CORSHTTPRequestHandler` is the
stdlib table (`do_GET`, `do_HEAD`) plus the one override `do_OPTIONS`
(serve.py lines 14-23); the class defines no handler for any other method.
Modelled from the spec for the stdlib part: `handle_one_request` answers a
method with no `do_`-handler with the default 501 "Unsupported method" error. -/
def handle (fs : String → Option (List Nat)) (m : Method) (path : String) : Response :=
  match m with
  | .GET => do_GET fs path initResponse
  | .HEAD => do_HEAD fs path initResponse
  | .OPTIONS => do_OPTIONS initResponse
  | _ => send_error initResponse 501

/-! ## Request logging -/

/-- Embedding of `CORSHTTPRequestHandler.log_message` (serve.py lines 25-27):
the one printed line is the bracketed timestamp followed by `format % args`,
already formatted. The client address is not interpolated anywhere. -/
def log_message (ts formatted : String) : String :=
  "[" ++ ts ++ "] " ++ formatted

/-- Modelled from the spec: `BaseHTTPRequestHandler.log_request` (stdlib)
formats the request line, the status code and the size into the string it
hands to `log_message` (Python format string of three fields: the quoted
request line, then status, then size). -/
def formatted_request (requestline code size : String) : String :=
  "\"" ++ requestline ++ "\" " ++ code ++ " " ++ size

/-- The one access-log line printed for a request with the given timestamp,
request line, status code and size. -/
def request_log_line (ts requestline code size : String) : String :=
  log_message ts (formatted_request requestline code size)

/-- The complete list of lines emitted to standard output for one logged
request: the single `print` call in `log_message`. -/
def emittedLogLines (ts requestline code size : String) : List String :=
  [request_log_line ts requestline code size]

/-- Boolean test: does the character list `needle` occur contiguously inside
`hay`? -/
def subSeqB (needle hay : List Char) : Bool :=
  (List.range (hay.length + 1)).any fun i => needle.isPrefixOf (hay.drop i)

/-- Boolean substring test on strings. -/
def containsStr (hay needle : String) : Bool :=
  subSeqB needle.toList hay.toList

/-! ## The `main` entry point as an effect trace -/

/-- Observable effects of `main` (serve.py lines 29-53), in program order. -/
inductive Effect where
  | warnInvalidPort
  | chdir (dir : String)
  | bindListener (port : Int)
  | uncaughtBindError
  | banner
  | serveLoop
  | printShutdown
  | shutdownCall
deriving DecidableEq, Repr

/-- How the process ends: still serving (never interrupted), or exited with
the given status code. -/
inductive Outcome where
  | running
  | exited (code : Nat)
deriving DecidableEq, Repr

/-- Embedding of `main` (serve.py lines 29-53) as its trace of observable
effects plus the process outcome. `args` is `sys.argv[1:]`; `scriptDir` is
`os.path.dirname(os.path.abspath(__file__))`. `bindFails` abstracts the OS
refusing the bind (`TCPServer` raising `OSError`, uncaught, so the process
dies with a traceback and exit status 1); `interrupted` abstracts an operator
interrupt during `serve_forever` (the only way the loop ends), caught as
`KeyboardInterrupt`: the shutdown notice prints, `httpd.shutdown()` runs, and
`main` returns normally, so the process exits with status 0. -/
def main (args : List String) (scriptDir : String) (bindFails interrupted : Bool) :
    List Effect × Outcome :=
  let pw := parsePort args
  let t0 := if pw.2 then [Effect.warnInvalidPort] else []
  let t1 := t0 ++ [Effect.chdir scriptDir, Effect.bindListener pw.1]
  if bindFails then
    (t1 ++ [Effect.uncaughtBindError], Outcome.exited 1)
  else
    let t2 := t1 ++ [Effect.banner, Effect.serveLoop]
    if interrupted then
      (t2 ++ [Effect.printShutdown, Effect.shutdownCall], Outcome.exited 0)
    else
      (t2, Outcome.running)

/-- Is this effect the chdir that sets the serving root? -/
def isChdirEffect : Effect → Bool
  | .chdir _ => true
  | _ => false

/-- Is this effect a bind attempt? -/
def isBindEffect : Effect → Bool
  | .bindListener _ => true
  | _ => false

/-- Demonstration filesystem for concrete witnesses: one file under the
serving root. -/
def fsDemo : String → Option (List Nat) :=
  fun p => if p = "/index.html" then some [104, 105, 10] else none

end Serve
namespace Serve

/-- C1: for every HTTP response the server produces — success, redirect, or
error, for any request method — the three CORS headers are added before the
response is finalized, with exactly the literal values from the source. -/
theorem c1_cors_headers_on_every_response :
    (∀ r : Response,
      ("Access-Control-Allow-Origin", "*") ∈ (end_headers r).headers ∧
      ("Access-Control-Allow-Methods", "GET, POST, OPTIONS") ∈ (end_headers r).headers ∧
      ("Access-Control-Allow-Headers", "Content-Type") ∈ (end_headers r).headers ∧
      (end_headers r).headersFinalized = true) ∧
    (∀ (fs : String → Option (List Nat)) (m : Method) (p : String),
      ("Access-Control-Allow-Origin", "*") ∈ (handle fs m p).headers ∧
      ("Access-Control-Allow-Methods", "GET, POST, OPTIONS") ∈ (handle fs m p).headers ∧
      ("Access-Control-Allow-Headers", "Content-Type") ∈ (handle fs m p).headers ∧
      (handle fs m p).headersFinalized = true) := by
  constructor
  · intro r
    simp [end_headers, send_header, base_end_headers]
  · intro fs m p
    cases m <;> cases h : fs p <;>
      simp [handle, do_GET, do_HEAD, do_OPTIONS, send_error, end_headers,
        send_header, base_end_headers, send_response, initResponse, h]

/-- C2: an OPTIONS request to any path gets status 200 and an empty body,
whether or not a file exists at that path. -/
theorem c2_options_200_empty_body :
    ∀ (fs : String → Option (List Nat)) (p : String),
      (handle fs Method.OPTIONS p).status = some 200 ∧
      (handle fs Method.OPTIONS p).body = [] := by
  intro fs p
  simp [handle, do_OPTIONS, end_headers, send_header, base_end_headers,
    send_response, initResponse]

/-- C3: no argument → port 8080, no warning; argument parsing as an integer →
that integer is the port, no warning; argument failing to parse → warning
printed, port 8080, and the process continues to the bind. -/
theorem c3_port_selection :
    (∀ (d : String) (bf intr : Bool),
      Effect.warnInvalidPort ∉ (main [] d bf intr).1 ∧
      Effect.bindListener 8080 ∈ (main [] d bf intr).1) ∧
    (∀ (a : String) (rest : List String) (n : Int) (d : String) (bf intr : Bool),
      pyInt a = some n →
      Effect.warnInvalidPort ∉ (main (a :: rest) d bf intr).1 ∧
      Effect.bindListener n ∈ (main (a :: rest) d bf intr).1) ∧
    (∀ (a : String) (rest : List String) (d : String) (bf intr : Bool),
      pyInt a = none →
      Effect.warnInvalidPort ∈ (main (a :: rest) d bf intr).1 ∧
      Effect.bindListener 8080 ∈ (main (a :: rest) d bf intr).1) := by
  refine ⟨?_, ?_, ?_⟩
  · intro d bf intr
    cases bf <;> cases intr <;> simp [main, parsePort]
  · intro a rest n d bf intr h
    cases bf <;> cases intr <;> simp [main, parsePort, h]
  · intro a rest d bf intr h
    cases bf <;> cases intr <;> simp [main, parsePort, h]

/-- Concrete witness for `c3_port_selection`. -/
theorem c3_port_selection_witness :
    pyInt "9090" = some 9090 ∧
    Effect.warnInvalidPort ∉ (main ["9090"] "/srv" false true).1 ∧
    Effect.bindListener 9090 ∈ (main ["9090"] "/srv" false true).1 ∧
    pyInt "abc" = none ∧
    Effect.warnInvalidPort ∈ (main ["abc"] "/srv" false true).1 ∧
    Effect.bindListener 8080 ∈ (main ["abc"] "/srv" false true).1 := by
  have h1 : pyInt "9090" = some 9090 := by decide
  have h2 : pyInt "abc" = none := by decide
  have t1 := c3_port_selection.2.1 "9090" [] 9090 "/srv" false true h1
  have t2 := c3_port_selection.2.2 "abc" [] "/srv" false true h2
  exact ⟨h1, t1.1, t1.2, h2, t2.1, t2.2⟩

/-- C4: a GET whose path resolves to an existing file yields status 200 with
the file bytes as the body; a GET whose path resolves to no file yields 404. -/
theorem c4_get_existing_and_missing :
    ∀ (fs : String → Option (List Nat)) (p : String),
      (∀ bytes, fs p = some bytes →
        (handle fs Method.GET p).status = some 200 ∧
        (handle fs Method.GET p).body = bytes) ∧
      (fs p = none → (handle fs Method.GET p).status = some 404) := by
  intro fs p
  constructor
  · intro bytes h
    simp [handle, do_GET, h, end_headers, send_header, base_end_headers,
      send_response, initResponse]
  · intro h
    simp [handle, do_GET, h, send_error, end_headers, send_header,
      base_end_headers, send_response, initResponse]

/-- Concrete witness for `c4_get_existing_and_missing`. -/
theorem c4_get_existing_and_missing_witness :
    ((handle fsDemo Method.GET "/index.html").status = some 200 ∧
     (handle fsDemo Method.GET "/index.html").body = [104, 105, 10]) ∧
    (handle fsDemo Method.GET "/missing.xyz").status = some 404 := by
  have h1 : fsDemo "/index.html" = some [104, 105, 10] := by decide
  have h2 : fsDemo "/missing.xyz" = none := by decide
  exact ⟨(c4_get_existing_and_missing fsDemo "/index.html").1 [104, 105, 10] h1,
         (c4_get_existing_and_missing fsDemo "/missing.xyz").2 h2⟩

/-- C5 counterexample: for a concrete request from client address 127.0.0.1,
the emitted log line does not contain the client address — the overridden
log_message interpolates only the timestamp and the preformatted
request-line/status/size fields. -/
theorem c5_log_line_lacks_client_address :
    containsStr
      (request_log_line "12/Oct/2026 14:03:27" "GET /index.html HTTP/1.1" "200" "-")
      "127.0.0.1" = false := by decide

/-- C5 amended: for every request exactly one line is emitted to standard
output, consisting of the bracketed timestamp followed by the quoted request
line, the status and the size — with no client address. -/
theorem c5_single_log_line_fields :
    ∀ ts requestline code size : String,
      emittedLogLines ts requestline code size =
        ["[" ++ ts ++ "] " ++ ("\"" ++ requestline ++ "\" " ++ code ++ " " ++ size)] := by
  intro ts rl c s
  rfl

/-- C6: an argument that parses as an integer outside 1–65535 is not rejected:
no warning, no fallback to 8080 — the out-of-range integer goes straight to
the listener bind. -/
theorem c6_out_of_range_port_not_rejected :
    ∀ (a : String) (n : Int) (rest : List String) (d : String) (bf intr : Bool),
      pyInt a = some n → (n < 1 ∨ 65535 < n) →
      Effect.warnInvalidPort ∉ (main (a :: rest) d bf intr).1 ∧
      Effect.bindListener n ∈ (main (a :: rest) d bf intr).1 := by
  intro a n rest d bf intr h _
  cases bf <;> cases intr <;> simp [main, parsePort, h]

/-- Concrete witness for `c6_out_of_range_port_not_rejected`. -/
theorem c6_out_of_range_port_not_rejected_witness :
    pyInt "-1" = some (-1) ∧ ((-1 : Int) < 1 ∨ (65535 : Int) < -1) ∧
    Effect.warnInvalidPort ∉ (main ["-1"] "/srv" false true).1 ∧
    Effect.bindListener (-1) ∈ (main ["-1"] "/srv" false true).1 ∧
    pyInt "99999" = some 99999 ∧
    Effect.bindListener 99999 ∈ (main ["99999"] "/srv" false true).1 := by
  have h1 : pyInt "-1" = some (-1) := by decide
  have h2 : pyInt "99999" = some 99999 := by decide
  have w1 := c6_out_of_range_port_not_rejected "-1" (-1) [] "/srv" false true h1
    (Or.inl (by decide))
  have w2 := c6_out_of_range_port_not_rejected "99999" 99999 [] "/srv" false true h2
    (Or.inr (by decide))
  exact ⟨h1, Or.inl (by decide), w1.1, w1.2, h2, w2.2⟩

/-- C7: when the running server is interrupted, the serve loop ends, the
shutdown notice prints, `shutdown()` runs, the trace ends there (no hang,
listening stopped), and the process exits with status 0. -/
theorem c7_interrupt_clean_shutdown :
    ∀ (args : List String) (d : String),
      (main args d false true).2 = Outcome.exited 0 ∧
      Effect.printShutdown ∈ (main args d false true).1 ∧
      Effect.shutdownCall ∈ (main args d false true).1 ∧
      ∃ pre, (main args d false true).1 =
        pre ++ [Effect.printShutdown, Effect.shutdownCall] := by
  intro args d
  rcases hpw : parsePort args with ⟨p, w⟩
  cases w
  · exact ⟨by simp [main, hpw], by simp [main, hpw], by simp [main, hpw],
      ⟨[Effect.chdir d, Effect.bindListener p, Effect.banner, Effect.serveLoop],
        by simp [main, hpw]⟩⟩
  · exact ⟨by simp [main, hpw], by simp [main, hpw], by simp [main, hpw],
      ⟨[Effect.warnInvalidPort, Effect.chdir d, Effect.bindListener p,
        Effect.banner, Effect.serveLoop], by simp [main, hpw]⟩⟩

/-- C8: a bind failure is fatal — the process exits with nonzero status after
an uncaught error, exactly one bind is ever attempted, and the serve loop is
never reached. -/
theorem c8_bind_failure_fatal :
    ∀ (args : List String) (d : String) (intr : Bool),
      (main args d true intr).2 = Outcome.exited 1 ∧
      Effect.uncaughtBindError ∈ (main args d true intr).1 ∧
      ((main args d true intr).1.filter isBindEffect).length = 1 ∧
      Effect.serveLoop ∉ (main args d true intr).1 := by
  intro args d intr
  rcases hpw : parsePort args with ⟨p, w⟩
  cases w <;> simp [main, hpw, isBindEffect, List.filter]

/-- C9: a request whose method is not GET, HEAD or OPTIONS has no handler in
the class and falls through to the library default: status 501, still
carrying the three CORS headers. -/
theorem c9_unhandled_method_501_with_cors :
    ∀ (fs : String → Option (List Nat)) (p : String) (m : Method),
      m ≠ Method.GET → m ≠ Method.HEAD → m ≠ Method.OPTIONS →
      (handle fs m p).status = some 501 ∧
      ("Access-Control-Allow-Origin", "*") ∈ (handle fs m p).headers ∧
      ("Access-Control-Allow-Methods", "GET, POST, OPTIONS") ∈ (handle fs m p).headers ∧
      ("Access-Control-Allow-Headers", "Content-Type") ∈ (handle fs m p).headers := by
  intro fs p m h1 h2 h3
  cases m with
  | GET => exact absurd rfl h1
  | HEAD => exact absurd rfl h2
  | OPTIONS => exact absurd rfl h3
  | POST =>
    simp [handle, send_error, end_headers, send_header, base_end_headers,
      send_response, initResponse]
  | other s =>
    simp [handle, send_error, end_headers, send_header, base_end_headers,
      send_response, initResponse]

/-- Concrete witness for `c9_unhandled_method_501_with_cors`: a POST. -/
theorem c9_unhandled_method_501_with_cors_witness :
    (handle fsDemo Method.POST "/index.html").status = some 501 ∧
    ("Access-Control-Allow-Origin", "*") ∈ (handle fsDemo Method.POST "/index.html").headers := by
  have h := c9_unhandled_method_501_with_cors fsDemo "/index.html" Method.POST
    (by decide) (by decide) (by decide)
  exact ⟨h.1, h.2.1⟩

/-- C10: the serving root is set exactly once, to the directory of the script itself,
and the chdir immediately precedes the listener bind — so it happens after
the port argument is parsed and before the bind, and is never changed again. -/
theorem c10_serving_root_once_before_bind :
    ∀ (args : List String) (d : String) (bf intr : Bool),
      ((main args d bf intr).1.filter isChdirEffect) = [Effect.chdir d] ∧
      ∃ k, (main args d bf intr).1.get? k = some (Effect.chdir d) ∧
        (main args d bf intr).1.get? (k + 1) =
          some (Effect.bindListener (parsePort args).1) := by
  intro args d bf intr
  rcases hpw : parsePort args with ⟨p, w⟩
  cases w
  · cases bf <;> cases intr <;>
      exact ⟨by simp [main, hpw, isChdirEffect, List.filter], 0,
        by simp [main, hpw, List.get?], by simp [main, hpw, List.get?]⟩
  · cases bf <;> cases intr <;>
      exact ⟨by simp [main, hpw, isChdirEffect, List.filter], 1,
        by simp [main, hpw, List.get?], by simp [main, hpw, List.get?]⟩

end Serve
